import Mathlib

/-!
FormantPathArea (LPC/FormantPathArea.cpp)

A shallow embedding of the editor area that shows a formant path: the mouse
hit-test, the drawing of the ceiling lines, and the menu commands.

Conventions of the embedding.

* A C++ double is a rational number: no rounding, no infinity, no NaN. The one
  place where the source can divide by zero (the hit-test) is modelled
  explicitly, see `fabs_div_lt`.
* A Praat `integer` is an `Int`; vectors and ordered collections are lists
  that are indexed from 1, like in the source (`at1`).
* A read outside a vector and a failed `Melder_assert` are faults
  (`Except Fault`); a `Melder_throw` is an ordinary error value and leaves
  the state as it was at the moment of the throw.
* Functions that FormantPathArea.cpp calls but does not define (the lookups
  on the tier, the analysis, the number formatting, the fallback click
  handler) are arguments of the definitions that call them.
-/

namespace FormantPathArea

/-! ## Data model -/

/-- What can go wrong below the level of Melder errors. -/
inductive Fault
  | outOfBounds
  | assertionFailed
  deriving DecidableEq, Repr

/-- An error raised by `Melder_throw` or `Melder_require`, or by the form. -/
inductive MelderError
  | message (text : String)
  | formField (label : String)
  deriving DecidableEq, Repr

/-- One interval of a tier; `text` is `none` for a null string. -/
structure TextInterval where
  xmin : ℚ
  xmax : ℚ
  text : Option String
  deriving DecidableEq, Repr

structure IntervalTier where
  xmin : ℚ
  xmax : ℚ
  intervals : List TextInterval
  deriving DecidableEq, Repr

structure TextGrid where
  tiers : List IntervalTier
  deriving DecidableEq, Repr

/-- A formant track: a sampled sequence of frames, each a list of formant
frequencies. -/
structure Formant where
  xmin : ℚ
  xmax : ℚ
  nx : Int
  dx : ℚ
  x1 : ℚ
  frames : List (List ℚ)
  deriving DecidableEq, Repr

structure Sound where
  xmin : ℚ
  xmax : ℚ
  samples : List ℚ
  deriving DecidableEq, Repr

/-- The candidate set together with the tier (`path`) that selects among the
candidates. -/
structure FormantPath where
  xmin : ℚ
  xmax : ℚ
  nx : Int
  dx : ℚ
  x1 : ℚ
  formantCandidates : List Formant
  ceilings : List ℚ
  path : TextGrid
  deriving DecidableEq, Repr

/-- The instance preferences that FormantPathArea.cpp reads or writes. -/
structure Prefs where
  spectrogram_viewFrom : ℚ
  spectrogram_viewTo : ℚ
  formant_show : Bool
  formant_dotSize : ℚ
  formant_dynamicRange : ℚ
  formant_path_oddColour : String
  formant_path_evenColour : String
  formant_path_timeStep : ℚ
  formant_path_maximumNumberOfFormants : ℚ
  formant_path_middleFormantCeiling : ℚ
  formant_path_windowLength : ℚ
  formant_path_preEmpasisFrom : ℚ
  formant_path_ceilingStepSize : ℚ
  formant_path_numberOfStepsUpDown : Int
  formant_picture_garnish : Bool
  deriving DecidableEq, Repr

/-- The state of one area (`me`): preferences, the data being edited, the
derived active track, the optional sound, and the window and selection of the
enclosing editor. `Pic` is the type of the picture preferences, which are
declared outside this file. -/
structure Area (Pic : Type) where
  prefs : Prefs
  picturePrefs : Pic
  formantPath : FormantPath
  d_formant : Formant
  sound : Option Sound
  startWindow : ℚ
  endWindow : ℚ
  startSelection : ℚ
  endSelection : ℚ

/-- Element `i` of a vector that is indexed from 1. -/
def at1 {α : Type} (xs : List α) (i : Int) : Except Fault α :=
  if 1 ≤ i then
    match xs[(i - 1).toNat]? with
    | some x => .ok x
    | none => .error .outOfBounds
  else .error .outOfBounds

/-- Modelled from the spec: `setSelection` of the enclosing function area is
not in this file; the spec says the interval becomes the new selection
range. -/
def setSelection {Pic : Type} (me : Area Pic) (tmin tmax : ℚ) : Area Pic :=
  { me with startSelection := tmin, endSelection := tmax }

/-! ## The hit-test -/

/-- The test `fabs (a / b) < bound` on doubles. With `b = 0` the quotient is
an infinity or a NaN, and the comparison is false. -/
def fabs_div_lt (a b bound : ℚ) : Bool :=
  if b = 0 then false else decide (|a / b| < bound)

/-- The method `v_mouse` (lines 36-51). `getCandidateAtTime` returns
`(tmin, tmax, candidate)`; `defaultMouse` is the generic handler of the
editor, which may change the state and says whether it handled the click. -/
def v_mouse {Pic Event : Type}
    (FormantPath_getCandidateAtTime : FormantPath → ℚ → ℚ × ℚ × Int)
    (FunctionEditor_defaultMouseInWideDataView : Area Pic → Event → ℚ → Area Pic × Bool)
    (me : Area Pic) (event : Event) (x_world localY_fraction : ℚ) :
    Except Fault (Area Pic × Bool) :=
  let fmin := me.prefs.spectrogram_viewFrom
  let fmax := me.prefs.spectrogram_viewTo
  let frequencyAtClickPoint := fmin + localY_fraction * (fmax - fmin)
  match FormantPath_getCandidateAtTime me.formantPath x_world with
  | (tmin, tmax, candidate) =>
    if candidate > 0 then
      match at1 me.formantPath.ceilings candidate with
      | .error e => .error e
      | .ok ceilingFrequency =>
        if fabs_div_lt (ceilingFrequency - frequencyAtClickPoint) (fmax - fmin) 0.02 then
          .ok (setSelection me tmin tmax, true)
        else
          .ok (FunctionEditor_defaultMouseInWideDataView me event x_world)
    else
      .ok (FunctionEditor_defaultMouseInWideDataView me event x_world)

/-- The normalized distance of the spec:
`|ceilingFrequency − clickFrequency| / (visibleFreqMax − visibleFreqMin)`. -/
def normalizedDistance (ceilingFrequency clickFrequency visibleFreqMin visibleFreqMax : ℚ) : ℚ :=
  |ceilingFrequency - clickFrequency| / (visibleFreqMax - visibleFreqMin)

/-- The click frequency of the spec, from the vertical fraction of the click. -/
def clickFrequency (visibleFreqMin visibleFreqMax localY_fraction : ℚ) : ℚ :=
  visibleFreqMin + localY_fraction * (visibleFreqMax - visibleFreqMin)

/-! ## Drawing -/

inductive MelderColour
  | BLACK
  | RED
  | PINK
  | named (name : String)
  deriving DecidableEq, Repr

inductive kGraphics_horizontalAlignment
  | LEFT
  | CENTRE
  | RIGHT
  deriving DecidableEq, Repr

inductive VerticalAlignment
  | BASELINE
  | BOTTOM
  | HALF
  | TOP
  deriving DecidableEq, Repr

/-- The calls on a graphics surface, in the order in which they are made. -/
inductive GraphicsCmd
  | setWindow (x1 x2 y1 y2 : ℚ)
  | setTextAlignment (horizontal : kGraphics_horizontalAlignment) (vertical : VerticalAlignment)
  | setColour (colour : MelderColour)
  | setLineWidth (lineWidth : ℚ)
  | setSpeckleSize (speckleSize : ℚ)
  | line (x1 y1 x2 y2 : ℚ)
  | text (x y : ℚ) (txt : String)
  | speckle (x y : ℚ)
  deriving DecidableEq, Repr

/-- The body of the loop of `FormantPathArea_drawCeilings` (lines 63-74),
run `n` times from interval number `iint`; `g` holds the commands emitted so
far. -/
def drawCeilings_loop (Melder_atoi : String → Int) (Melder_fixed : ℚ → Nat → String)
    (ceilings : List ℚ) (intervals : List TextInterval) :
    Nat → Int → List GraphicsCmd → Except Fault (List GraphicsCmd)
  | 0, _, g => .ok g
  | n + 1, iint, g =>
    match at1 intervals iint with
    | .error e => .error e
    | .ok textInterval =>
      match textInterval.text with
      | some label =>
        let index := Melder_atoi label
        if index > 0 ∧ index ≤ (ceilings.length : Int) then
          match at1 ceilings index with
          | .error e => .error e
          | .ok ceiling =>
            drawCeilings_loop Melder_atoi Melder_fixed ceilings intervals n (iint + 1)
              (g ++ [GraphicsCmd.line textInterval.xmin ceiling textInterval.xmax ceiling,
                     GraphicsCmd.text (0.5 * (textInterval.xmin + textInterval.xmax)) (ceiling + 50.0)
                       (Melder_fixed ceiling 0)])
        else
          drawCeilings_loop Melder_atoi Melder_fixed ceilings intervals n (iint + 1) g
      | none =>
        drawCeilings_loop Melder_atoi Melder_fixed ceilings intervals n (iint + 1) g

/-- The function `FormantPathArea_drawCeilings` (lines 53-76): the commands
it sends to the graphics of the area. The loop runs for
`iint = minIndex .. maxIndex`, that is `maxIndex + 1 - minIndex` times. -/
def FormantPathArea_drawCeilings {Pic : Type}
    (IntervalTier_timeToLowIndex IntervalTier_timeToHighIndex : IntervalTier → ℚ → Int)
    (Melder_atoi : String → Int) (Melder_fixed : ℚ → Nat → String)
    (me : Area Pic) (tmin tmax fmin fmax : ℚ) : Except Fault (List GraphicsCmd) :=
  match at1 me.formantPath.path.tiers 1 with
  | .error e => .error e
  | .ok intervalTier =>
    let minIndex := IntervalTier_timeToLowIndex intervalTier tmin
    let maxIndex := IntervalTier_timeToHighIndex intervalTier tmax
    if minIndex > 0 ∧ maxIndex > 0 then
      match drawCeilings_loop Melder_atoi Melder_fixed me.formantPath.ceilings
          intervalTier.intervals (maxIndex + 1 - minIndex).toNat minIndex
          [GraphicsCmd.setWindow tmin tmax fmin fmax,
           GraphicsCmd.setTextAlignment kGraphics_horizontalAlignment.CENTRE VerticalAlignment.BASELINE,
           GraphicsCmd.setColour MelderColour.RED,
           GraphicsCmd.setLineWidth 3.0] with
      | .error e => .error e
      | .ok g => .ok (g ++ [GraphicsCmd.setLineWidth 1.0])
    else .error .assertionFailed

/-- The method `v_draw_analysis_formants` (lines 78-94).
`Formant_drawSpeckles_inside` gives the commands that draw the speckles. -/
def v_draw_analysis_formants {Pic : Type}
    (IntervalTier_timeToLowIndex IntervalTier_timeToHighIndex : IntervalTier → ℚ → Int)
    (Melder_atoi : String → Int) (Melder_fixed : ℚ → Nat → String)
    (MelderColour_fromColourName : String → MelderColour)
    (Formant_drawSpeckles_inside :
      Formant → ℚ → ℚ → ℚ → ℚ → ℚ → MelderColour → MelderColour → Bool → List GraphicsCmd)
    (me : Area Pic) : Except Fault (List GraphicsCmd) :=
  if me.prefs.formant_show then
    let oddColour := MelderColour_fromColourName me.prefs.formant_path_oddColour
    let evenColour := MelderColour_fromColourName me.prefs.formant_path_evenColour
    match FormantPathArea_drawCeilings IntervalTier_timeToLowIndex IntervalTier_timeToHighIndex
        Melder_atoi Melder_fixed me me.startWindow me.endWindow
        me.prefs.spectrogram_viewFrom me.prefs.spectrogram_viewTo with
    | .error e => .error e
    | .ok ceilingCmds =>
      .ok ([GraphicsCmd.setColour MelderColour.RED,
            GraphicsCmd.setSpeckleSize me.prefs.formant_dotSize]
        ++ Formant_drawSpeckles_inside me.d_formant me.startWindow me.endWindow
            me.prefs.spectrogram_viewFrom me.prefs.spectrogram_viewTo
            me.prefs.formant_dynamicRange oddColour evenColour true
        ++ [GraphicsCmd.setColour MelderColour.PINK]
        ++ ceilingCmds
        ++ [GraphicsCmd.setColour MelderColour.BLACK])
  else .ok []

/-- The candidate index that a label names, when it names one of `1 .. N`. -/
def validLabelIndex (Melder_atoi : String → Int) (N : Nat) (text : Option String) : Option Nat :=
  match text with
  | none => none
  | some label =>
    if 1 ≤ Melder_atoi label ∧ Melder_atoi label ≤ (N : Int) then some (Melder_atoi label).toNat
    else none

/-- What the spec asks for one interval: a horizontal line at the ceiling of
its label and a label centred between its ends, or nothing when the label
names no candidate. -/
def intervalCommands (Melder_atoi : String → Int) (Melder_fixed : ℚ → Nat → String)
    (ceilings : List ℚ) (textInterval : TextInterval) : List GraphicsCmd :=
  match validLabelIndex Melder_atoi ceilings.length textInterval.text with
  | none => []
  | some L =>
    [GraphicsCmd.line textInterval.xmin (ceilings.getD (L - 1) 0) textInterval.xmax (ceilings.getD (L - 1) 0),
     GraphicsCmd.text ((textInterval.xmin + textInterval.xmax) / 2) (ceilings.getD (L - 1) 0 + 50)
       (Melder_fixed (ceilings.getD (L - 1) 0) 0)]

/-- The intervals numbered `minIndex .. maxIndex` (from 1), in tier order. -/
def intervalsBetween (intervals : List TextInterval) (minIndex maxIndex : Int) : List TextInterval :=
  (intervals.drop (minIndex - 1).toNat).take (maxIndex + 1 - minIndex).toNat

/-! ## Menu commands -/

/-- What a command does to the world outside the area, in order. A
data-changed broadcast carries the area as its receivers see it at that
moment. -/
inductive Effect (Pic : Type)
  | broadcastDataChanged (me : Area Pic)
  | openPraatPicture
  | drawSpeckles (formant : Formant) (tmin tmax fmax dynamicRange : ℚ) (garnish : Bool)
  | garnishPicture
  | closePraatPicture

/-- The result of a menu command: the area afterwards, the effects it had,
and whether it ended by throwing. -/
structure Outcome (Pic : Type) where
  me : Area Pic
  effects : List (Effect Pic)
  result : Except MelderError Unit

/-- The seven values of the form "Formant analysis settings...". -/
structure FormantSettings where
  timeStep : ℚ
  maximumNumberOfFormants : ℚ
  middleFormantCeiling : ℚ
  windowLength : ℚ
  preEmphasisFrom : ℚ
  ceilingStepSize : ℚ
  numberOfStepsUpDown : Int
  deriving DecidableEq, Repr

/-- A form field declared POSITIVE refuses a value that is not greater than
zero. (The form layer is outside this file; a field declared REAL takes any
number.) -/
def checkPOSITIVE (label : String) (value : ℚ) : Except MelderError Unit :=
  if 0 < value then .ok () else .error (.formField label)

/-- A form field declared NATURAL refuses an integer below 1. -/
def checkNATURAL (label : String) (value : Int) : Except MelderError Unit :=
  if 1 ≤ value then .ok () else .error (.formField label)

/-- The fields of the form of `menu_cb_FormantSettings` (lines 98-107), in
order, with the kinds they are declared with: the time step and the middle
formant ceiling are REAL, so they are not checked. -/
def menu_cb_FormantSettings_FORM (args : FormantSettings) : Except MelderError Unit :=
  match checkPOSITIVE "Max. number of formants" args.maximumNumberOfFormants with
  | .error e => .error e
  | .ok _ =>
    match checkPOSITIVE "Window length (s)" args.windowLength with
    | .error e => .error e
    | .ok _ =>
      match checkPOSITIVE "Pre-emphasis from (Hz)" args.preEmphasisFrom with
      | .error e => .error e
      | .ok _ =>
        match checkPOSITIVE "Ceiling step size" args.ceilingStepSize with
        | .error e => .error e
        | .ok _ => checkNATURAL "Number of steps up / down" args.numberOfStepsUpDown

/-- The values that the form shows when it opens (lines 109-115): the stored
settings. -/
def menu_cb_FormantSettings_OK {Pic : Type} (me : Area Pic) : FormantSettings :=
  { timeStep := me.prefs.formant_path_timeStep
    maximumNumberOfFormants := me.prefs.formant_path_maximumNumberOfFormants
    middleFormantCeiling := me.prefs.formant_path_middleFormantCeiling
    windowLength := me.prefs.formant_path_windowLength
    preEmphasisFrom := me.prefs.formant_path_preEmpasisFrom
    ceilingStepSize := me.prefs.formant_path_ceilingStepSize
    numberOfStepsUpDown := me.prefs.formant_path_numberOfStepsUpDown }

/-- The seven setters of lines 119-125. -/
def storeFormantSettings (prefs : Prefs) (args : FormantSettings) : Prefs :=
  { prefs with
    formant_path_timeStep := args.timeStep
    formant_path_maximumNumberOfFormants := args.maximumNumberOfFormants
    formant_path_middleFormantCeiling := args.middleFormantCeiling
    formant_path_windowLength := args.windowLength
    formant_path_preEmpasisFrom := args.preEmphasisFrom
    formant_path_ceilingStepSize := args.ceilingStepSize
    formant_path_numberOfStepsUpDown := args.numberOfStepsUpDown }

/-- The assignments of lines 129-134: the sampling, the candidates, the
ceilings and the path are taken from `result`; the domain stays. -/
def replaceCandidates (mine result : FormantPath) : FormantPath :=
  { mine with
    nx := result.nx
    dx := result.dx
    x1 := result.x1
    formantCandidates := result.formantCandidates
    ceilings := result.ceilings
    path := result.path }

/-- The part of `menu_cb_FormantSettings` that runs once the form has taken
the values (lines 116-137). The analysis and the projection are outside this
file and may throw. -/
def menu_cb_FormantSettings_DO {Pic : Type}
    (Sound_to_FormantPath_burg : Sound → ℚ → ℚ → ℚ → ℚ → ℚ → ℚ → Int → Except MelderError FormantPath)
    (FormantPath_extractFormant : FormantPath → Except MelderError Formant)
    (me : Area Pic) (args : FormantSettings) : Outcome Pic :=
  match me.sound with
  | none => { me := me, effects := [], result := .error (.message "There is no sound to analyze.") }
  | some sound =>
    let me1 : Area Pic := { me with prefs := storeFormantSettings me.prefs args }
    match Sound_to_FormantPath_burg sound args.timeStep args.maximumNumberOfFormants
        args.middleFormantCeiling args.windowLength args.preEmphasisFrom args.ceilingStepSize
        args.numberOfStepsUpDown with
    | .error e => { me := me1, effects := [], result := .error e }
    | .ok result =>
      let me2 : Area Pic := { me1 with formantPath := replaceCandidates me1.formantPath result }
      match FormantPath_extractFormant me2.formantPath with
      | .error e => { me := me2, effects := [], result := .error e }
      | .ok formant =>
        let me3 : Area Pic := { me2 with d_formant := formant }
        { me := me3, effects := [Effect.broadcastDataChanged me3], result := .ok () }

/-- The command `menu_cb_FormantSettings` (lines 97-138) when the form is
confirmed with `args`: the form checks its fields, then the body runs. -/
def menu_cb_FormantSettings {Pic : Type}
    (Sound_to_FormantPath_burg : Sound → ℚ → ℚ → ℚ → ℚ → ℚ → ℚ → Int → Except MelderError FormantPath)
    (FormantPath_extractFormant : FormantPath → Except MelderError Formant)
    (me : Area Pic) (args : FormantSettings) : Outcome Pic :=
  match menu_cb_FormantSettings_FORM args with
  | .error e => { me := me, effects := [], result := .error e }
  | .ok _ => menu_cb_FormantSettings_DO Sound_to_FormantPath_burg FormantPath_extractFormant me args

/-- The text of the error of line 171. -/
def noFormantContourVisible : String :=
  "No formant contour is visible.\nFirst choose \"Show formant\" from the Formant menu."

/-- The part of `menu_cb_DrawVisibleFormantContour` that runs once the form
has taken the values (lines 166-181). The three `v_do_picture...` methods are
outside this file; they store the picture settings of the form. -/
def menu_cb_DrawVisibleFormantContour_DO {Pic : Type}
    (v_do_pictureWindow v_do_pictureMargins v_do_pictureSelection : Pic → Pic)
    (me : Area Pic) (garnish : Bool) : Outcome Pic :=
  let me1 : Area Pic := { me with picturePrefs := v_do_pictureWindow me.picturePrefs }
  let me2 : Area Pic := { me1 with picturePrefs := v_do_pictureMargins me1.picturePrefs }
  let me3 : Area Pic := { me2 with picturePrefs := v_do_pictureSelection me2.picturePrefs }
  let me4 : Area Pic := { me3 with prefs := { me3.prefs with formant_picture_garnish := garnish } }
  if ! me4.prefs.formant_show then
    { me := me4, effects := [], result := .error (.message noFormantContourVisible) }
  else
    { me := me4
      effects :=
        [Effect.openPraatPicture,
         Effect.drawSpeckles me4.d_formant me4.startWindow me4.endWindow
           me4.prefs.spectrogram_viewTo me4.prefs.formant_dynamicRange garnish,
         Effect.garnishPicture,
         Effect.closePraatPicture]
      result := .ok () }

/-! ## The formant listing -/

inductive kFormant_unit
  | HERTZ
  | BARK
  deriving DecidableEq, Repr

/-- One data line of the listing (lines 197-201 and 207-211): the time and
F1 to F4 at that time, each through `Melder_fixed (·, 6)`. -/
def formantListing_line (Formant_getValueAtTime : Formant → Int → ℚ → kFormant_unit → ℚ)
    (Melder_fixed : ℚ → Nat → String) (formant : Formant) (t : ℚ) : String :=
  let f1 := Formant_getValueAtTime formant 1 t kFormant_unit.HERTZ
  let f2 := Formant_getValueAtTime formant 2 t kFormant_unit.HERTZ
  let f3 := Formant_getValueAtTime formant 3 t kFormant_unit.HERTZ
  let f4 := Formant_getValueAtTime formant 4 t kFormant_unit.HERTZ
  Melder_fixed t 6 ++ "   " ++ Melder_fixed f1 6 ++ "   " ++ Melder_fixed f2 6 ++ "   "
    ++ Melder_fixed f3 6 ++ "   " ++ Melder_fixed f4 6

/-- The loop of lines 205-212, run `n` times from frame `i`; `info` holds the
lines written so far. -/
def formantListing_loop (Formant_getValueAtTime : Formant → Int → ℚ → kFormant_unit → ℚ)
    (Sampled_indexToX : Formant → Int → ℚ) (Melder_fixed : ℚ → Nat → String)
    (formant : Formant) : Nat → Int → List String → List String
  | 0, _, info => info
  | n + 1, i, info =>
    let t := Sampled_indexToX formant i
    formantListing_loop Formant_getValueAtTime Sampled_indexToX Melder_fixed formant n (i + 1)
      (info ++ [formantListing_line Formant_getValueAtTime Melder_fixed formant t])

/-- The command `INFO_DATA__formantListing` (lines 191-216): the lines
written to the info window. The loop runs for `i = i1 .. i2`. -/
def INFO_DATA__formantListing {Pic : Type}
    (Formant_getValueAtTime : Formant → Int → ℚ → kFormant_unit → ℚ)
    (Sampled_getWindowSamples : Formant → ℚ → ℚ → Int × Int)
    (Sampled_indexToX : Formant → Int → ℚ) (Melder_fixed : ℚ → Nat → String)
    (me : Area Pic) : List String :=
  let startTime := me.startSelection
  let endTime := me.endSelection
  let info := ["Time_s   F1_Hz   F2_Hz   F3_Hz   F4_Hz"]
  if startTime = endTime then
    info ++ [formantListing_line Formant_getValueAtTime Melder_fixed me.d_formant startTime]
  else
    match Sampled_getWindowSamples me.d_formant startTime endTime with
    | (i1, i2) =>
      formantListing_loop Formant_getValueAtTime Sampled_indexToX Melder_fixed me.d_formant
        (i2 + 1 - i1).toNat i1 info

/-- The data row that the spec asks for at time `t`: the time and the four
formant values F1..F4, each with 6 decimals, separated by three spaces. -/
def listingRow (Formant_getValueAtTime : Formant → Int → ℚ → kFormant_unit → ℚ)
    (Melder_fixed : ℚ → Nat → String) (formant : Formant) (t : ℚ) : String :=
  "   ".intercalate
    (Melder_fixed t 6 ::
      [1, 2, 3, 4].map (fun k => Melder_fixed (Formant_getValueAtTime formant k t kFormant_unit.HERTZ) 6))

/-- The frame numbers `i1, i1 + 1, .., i2` (none when `i2 < i1`). -/
def frameRange (i1 i2 : Int) : List Int :=
  (List.range (i2 + 1 - i1).toNat).map (fun k : Nat => i1 + (k : Int))

/-- The distance `d` of the spec for a click at vertical fraction
`localY_fraction` and the ceiling of candidate `L`, in the visible range of
the area. -/
def hitDistance {Pic : Type} (me : Area Pic) (L : Int) (localY_fraction : ℚ) : ℚ :=
  normalizedDistance (me.formantPath.ceilings.getD (L.toNat - 1) 0)
    (clickFrequency me.prefs.spectrogram_viewFrom me.prefs.spectrogram_viewTo localY_fraction)
    me.prefs.spectrogram_viewFrom me.prefs.spectrogram_viewTo

/-- The commands that the spec asks of the drawing of the ceilings: the
set-up, then for each interval from `minIndex` to `maxIndex` its line and
label (if its label names a candidate), then the line width back to 1. -/
def ceilingCommands (Melder_atoi : String → Int) (Melder_fixed : ℚ → Nat → String)
    (ceilings : List ℚ) (intervals : List TextInterval) (minIndex maxIndex : Int)
    (tmin tmax fmin fmax : ℚ) : List GraphicsCmd :=
  [GraphicsCmd.setWindow tmin tmax fmin fmax,
   GraphicsCmd.setTextAlignment kGraphics_horizontalAlignment.CENTRE VerticalAlignment.BASELINE,
   GraphicsCmd.setColour MelderColour.RED,
   GraphicsCmd.setLineWidth 3]
  ++ (intervalsBetween intervals minIndex maxIndex).flatMap
      (intervalCommands Melder_atoi Melder_fixed ceilings)
  ++ [GraphicsCmd.setLineWidth 1]

/-! ## A small session, on which the definitions are exercised -/

/-- A reading of a one-digit label, enough for the labels of the examples;
any other text gives 0. -/
def demo_Melder_atoi (label : String) : Int :=
  match label.toList with
  | [c] => if c.isDigit then ((c.toNat - 48 : Nat) : Int) else 0
  | _ => 0

def demo_Melder_fixed (value : ℚ) (precision : Nat) : String :=
  toString value.num ++ ":" ++ toString value.den ++ ":" ++ toString precision

/-- Two intervals, labelled with candidates 2 and 4. -/
def demoTier : IntervalTier :=
  { xmin := 0, xmax := 2
    intervals := [{ xmin := 0, xmax := 1, text := some "2" }, { xmin := 1, xmax := 2, text := some "4" }] }

/-- One interval whose label names no candidate of a set of five. -/
def demoTierLabel7 : IntervalTier :=
  { xmin := 0, xmax := 2, intervals := [{ xmin := 0, xmax := 2, text := some "7" }] }

def demoFormant : Formant :=
  { xmin := 0, xmax := 2, nx := 4, dx := 1 / 2, x1 := 1 / 4
    frames := [[500, 1500, 2500, 3500], [510, 1510, 2510, 3510], [520, 1520, 2520, 3520],
      [530, 1530, 2530, 3530]] }

def demoFormantPath : FormantPath :=
  { xmin := 0, xmax := 2, nx := 4, dx := 1 / 2, x1 := 1 / 4
    formantCandidates := [demoFormant, demoFormant, demoFormant, demoFormant, demoFormant]
    ceilings := [4094, 4524, 5000, 5526, 6107]
    path := { tiers := [demoTier] } }

def demoPrefs : Prefs :=
  { spectrogram_viewFrom := 0, spectrogram_viewTo := 6000
    formant_show := true, formant_dotSize := 1, formant_dynamicRange := 30
    formant_path_oddColour := "pink", formant_path_evenColour := "lime"
    formant_path_timeStep := 1 / 200, formant_path_maximumNumberOfFormants := 5
    formant_path_middleFormantCeiling := 5000, formant_path_windowLength := 1 / 40
    formant_path_preEmpasisFrom := 50, formant_path_ceilingStepSize := 1 / 20
    formant_path_numberOfStepsUpDown := 4, formant_picture_garnish := true }

def demoSound : Sound :=
  { xmin := 0, xmax := 2, samples := [0, 1 / 2, 0, -1 / 2] }

/-- An area with a sound, the cursor at 3/2. -/
def demoArea : Area Nat :=
  { prefs := demoPrefs, picturePrefs := 0, formantPath := demoFormantPath, d_formant := demoFormant
    sound := some demoSound, startWindow := 0, endWindow := 2
    startSelection := 3 / 2, endSelection := 3 / 2 }

/-- The same area without a sound. -/
def demoAreaNoSound : Area Nat :=
  { demoArea with sound := none }

/-- The same area with the formants hidden. -/
def demoAreaHidden : Area Nat :=
  { demoArea with prefs := { demoPrefs with formant_show := false } }

/-- The same area with the tier whose label is 7. -/
def demoAreaLabel7 : Area Nat :=
  { demoArea with formantPath := { demoFormantPath with path := { tiers := [demoTierLabel7] } } }

/-- The interval of the first tier that holds `t` (its start included), with
the number its label reads as; zeros when there is none. -/
def demo_getCandidateAtTime (formantPath : FormantPath) (t : ℚ) : ℚ × ℚ × Int :=
  match formantPath.path.tiers with
  | [] => (0, 0, 0)
  | tier :: _ =>
    match tier.intervals.find? (fun interval => decide (interval.xmin ≤ t ∧ t < interval.xmax)) with
    | none => (0, 0, 0)
    | some interval =>
      (interval.xmin, interval.xmax,
        match interval.text with
        | none => 0
        | some label => demo_Melder_atoi label)

/-- A fallback handler that moves the cursor to the click and handles it. -/
def demo_defaultMouse (me : Area Nat) (_event : Unit) (x_world : ℚ) : Area Nat × Bool :=
  ({ me with startSelection := x_world, endSelection := x_world }, true)

/-- The number of the first interval that ends at or after `t` (0 if none). -/
def demo_timeToLowIndex (tier : IntervalTier) (t : ℚ) : Int :=
  if (tier.intervals.filter (fun interval => decide (interval.xmax < t))).length
      < tier.intervals.length then
    ((tier.intervals.filter (fun interval => decide (interval.xmax < t))).length : Int) + 1
  else 0

/-- The number of the last interval that starts at or before `t` (0 if
none). -/
def demo_timeToHighIndex (tier : IntervalTier) (t : ℚ) : Int :=
  ((tier.intervals.filter (fun interval => decide (interval.xmin ≤ t))).length : Int)

def demo_fromColourName (name : String) : MelderColour :=
  MelderColour.named name

def demo_drawSpeckles_inside (formant : Formant) (tmin _tmax _fmin _fmax _dynamicRange : ℚ)
    (_odd _even : MelderColour) (_drawWithColours : Bool) : List GraphicsCmd :=
  (formant.frames.headD []).map (fun f => GraphicsCmd.speckle tmin f)

/-- The settings of the source of the examples. -/
def demoSettings : FormantSettings :=
  { timeStep := 1 / 100, maximumNumberOfFormants := 5, middleFormantCeiling := 5500
    windowLength := 1 / 40, preEmphasisFrom := 50, ceilingStepSize := 1 / 10
    numberOfStepsUpDown := 2 }

/-- A result of the analysis: three candidates on a coarser grid. -/
def demoResult : FormantPath :=
  { xmin := 0, xmax := 2, nx := 2, dx := 1, x1 := 1 / 2
    formantCandidates := [demoFormant, demoFormant, demoFormant]
    ceilings := [4500, 5500, 6700]
    path := { tiers := [{ xmin := 0, xmax := 2, intervals := [{ xmin := 0, xmax := 2, text := some "2" }] }] } }

/-- An analysis that succeeds with `demoResult`. -/
def demo_burg (_sound : Sound) (_timeStep _maximumNumberOfFormants _middleFormantCeiling
    _windowLength _preEmphasisFrom _ceilingStepSize : ℚ) (_numberOfStepsUpDown : Int) :
    Except MelderError FormantPath :=
  .ok demoResult

/-- An analysis that throws. -/
def demo_burg_fails (_sound : Sound) (_timeStep _maximumNumberOfFormants _middleFormantCeiling
    _windowLength _preEmphasisFrom _ceilingStepSize : ℚ) (_numberOfStepsUpDown : Int) :
    Except MelderError FormantPath :=
  .error (.message "The analysis failed.")

/-- A projection that takes the first candidate. -/
def demo_extractFormant (formantPath : FormantPath) : Except MelderError Formant :=
  match formantPath.formantCandidates with
  | formant :: _ => .ok formant
  | [] => .error (.message "No candidates.")

/-- The settings of the examples with a time step of zero. -/
def demoSettingsZeroStep : FormantSettings :=
  { demoSettings with timeStep := 0 }

/-- The settings of the examples with a negative window length. -/
def demoSettingsBadWindow : FormantSettings :=
  { demoSettings with windowLength := -1 }

/-- The time of frame `i` on the grid of the track. -/
def demo_indexToX (formant : Formant) (i : Int) : ℚ :=
  formant.x1 + ((i : ℚ) - 1) * formant.dx

/-- The first and the last frame whose time lies between `tmin` and `tmax`. -/
def demo_getWindowSamples (formant : Formant) (tmin tmax : ℚ) : Int × Int :=
  (1 + (((List.range formant.nx.toNat).filter
      (fun k : Nat => decide (formant.x1 + (k : ℚ) * formant.dx < tmin))).length : Int),
    (((List.range formant.nx.toNat).filter
      (fun k : Nat => decide (formant.x1 + (k : ℚ) * formant.dx ≤ tmax))).length : Int))

/-- The value of formant `k` in the first frame, whatever the time. -/
def demo_getValueAtTime (formant : Formant) (k : Int) (_t : ℚ) (_unit : kFormant_unit) : ℚ :=
  (formant.frames.headD []).getD (k.toNat - 1) 0

/-- The example with the selection from 1/2 to 3/2. -/
def demoAreaRange : Area Nat :=
  { demoArea with startSelection := 1 / 2, endSelection := 3 / 2 }

/-! ## Lemmas -/

theorem at1_of_valid {α : Type} (xs : List α) (d : α) (i : Int) (h1 : 1 ≤ i)
    (h2 : i ≤ (xs.length : Int)) : at1 xs i = .ok (xs.getD (i.toNat - 1) d) := by
  unfold at1
  have heq : (i - 1).toNat = i.toNat - 1 := by omega
  have hlt : i.toNat - 1 < xs.length := by omega
  simp only [h1, if_true, heq, List.getD_eq_getElem?_getD, List.getElem?_eq_getElem hlt,
    Option.getD_some]

theorem at1_of_large {α : Type} (xs : List α) (i : Int) (h : (xs.length : Int) < i) :
    at1 xs i = .error .outOfBounds := by
  unfold at1
  split
  · have hge : xs.length ≤ (i - 1).toNat := by omega
    rw [List.getElem?_eq_none hge]
  · rfl

theorem fabs_div_lt_iff (a b bound : ℚ) (hb : 0 < b) :
    fabs_div_lt a b bound = true ↔ |a| / b < bound := by
  unfold fabs_div_lt
  have hne : b ≠ 0 := ne_of_gt hb
  simp [hne, abs_div, abs_of_pos hb]

/-- The result of `v_mouse` for a click on an interval with a valid label, in a
visible range that is not empty. -/
theorem v_mouse_of_valid {Pic Event : Type}
    (getCandidateAtTime : FormantPath → ℚ → ℚ × ℚ × Int)
    (defaultMouse : Area Pic → Event → ℚ → Area Pic × Bool)
    (me : Area Pic) (event : Event) (x_world localY_fraction tmin tmax : ℚ) (L : Int)
    (hcover : getCandidateAtTime me.formantPath x_world = (tmin, tmax, L))
    (hL : 1 ≤ L ∧ L ≤ (me.formantPath.ceilings.length : Int))
    (hspan : me.prefs.spectrogram_viewFrom < me.prefs.spectrogram_viewTo) :
    v_mouse getCandidateAtTime defaultMouse me event x_world localY_fraction
      = if hitDistance me L localY_fraction < 0.02 then .ok (setSelection me tmin tmax, true)
        else .ok (defaultMouse me event x_world) := by
  have hpos : L > 0 := by omega
  have hb : 0 < me.prefs.spectrogram_viewTo - me.prefs.spectrogram_viewFrom := by linarith
  unfold v_mouse
  simp only [hcover, hpos, if_true, at1_of_valid _ (0 : ℚ) L hL.1 hL.2]
  exact if_congr (fabs_div_lt_iff _ _ (0.02 : ℚ) hb) rfl rfl

theorem at1_eq_getElem {α : Type} (xs : List α) (i : Int) (h1 : 1 ≤ i)
    (hlt : (i - 1).toNat < xs.length) : at1 xs i = .ok (xs.get ⟨(i - 1).toNat, hlt⟩) := by
  unfold at1
  simp only [h1, if_true, List.getElem?_eq_getElem hlt, List.get_eq_getElem]

/-- The commands of the spec for one interval, by the cases of its label. -/
theorem intervalCommands_cases (atoi : String → Int) (fixed : ℚ → Nat → String)
    (ceilings : List ℚ) (textInterval : TextInterval) :
    (textInterval.text = none → intervalCommands atoi fixed ceilings textInterval = [])
    ∧ (∀ label, textInterval.text = some label →
        ¬ (atoi label > 0 ∧ atoi label ≤ (ceilings.length : Int)) →
        intervalCommands atoi fixed ceilings textInterval = [])
    ∧ (∀ label, textInterval.text = some label →
        (atoi label > 0 ∧ atoi label ≤ (ceilings.length : Int)) →
        intervalCommands atoi fixed ceilings textInterval
          = [GraphicsCmd.line textInterval.xmin (ceilings.getD ((atoi label).toNat - 1) 0)
               textInterval.xmax (ceilings.getD ((atoi label).toNat - 1) 0),
             GraphicsCmd.text (0.5 * (textInterval.xmin + textInterval.xmax))
               (ceilings.getD ((atoi label).toNat - 1) 0 + 50.0)
               (fixed (ceilings.getD ((atoi label).toNat - 1) 0) 0)]) := by
  refine ⟨fun h => ?_, fun label h hbad => ?_, fun label h hok => ?_⟩
  · simp [intervalCommands, validLabelIndex, h]
  · have hbad2 : ¬ (1 ≤ atoi label ∧ atoi label ≤ (ceilings.length : Int)) :=
      fun hh => hbad ⟨by omega, hh.2⟩
    simp [intervalCommands, validLabelIndex, h, hbad2]
  · have hok2 : 1 ≤ atoi label ∧ atoi label ≤ (ceilings.length : Int) := ⟨by omega, hok.2⟩
    have hhalf : (0.5 : ℚ) * (textInterval.xmin + textInterval.xmax)
        = (textInterval.xmin + textInterval.xmax) / 2 := by norm_num; ring
    have hfifty : (50.0 : ℚ) = 50 := by norm_num
    simp only [intervalCommands, validLabelIndex, h, hok2, and_self, if_true, hhalf, hfifty]

/-- The loop of `FormantPathArea_drawCeilings` adds, for the `n` intervals
from number `iint` on, the commands of the spec, in tier order. -/
theorem drawCeilings_loop_eq (atoi : String → Int) (fixed : ℚ → Nat → String)
    (ceilings : List ℚ) (intervals : List TextInterval) :
    ∀ (n : Nat) (iint : Int) (g : List GraphicsCmd), 1 ≤ iint →
      (0 < n → iint - 1 + (n : Int) ≤ (intervals.length : Int)) →
      drawCeilings_loop atoi fixed ceilings intervals n iint g
        = .ok (g ++ ((intervals.drop (iint - 1).toNat).take n).flatMap
            (intervalCommands atoi fixed ceilings)) := by
  intro n
  induction n with
  | zero => intro iint g _ _; simp [drawCeilings_loop]
  | succ n ih =>
    intro iint g h1 hn
    have hlen : iint - 1 + ((n + 1 : Nat) : Int) ≤ (intervals.length : Int) := hn (by omega)
    have hk : (iint - 1).toNat < intervals.length := by omega
    have hnext : (iint + 1 - 1).toNat = (iint - 1).toNat + 1 := by omega
    have hrec := fun g2 => ih (iint + 1) g2 (by omega) (fun _ => by push_cast at hlen ⊢; omega)
    obtain ⟨hnone, hbad, hok⟩ := intervalCommands_cases atoi fixed ceilings
      (intervals.get ⟨(iint - 1).toNat, hk⟩)
    rw [drawCeilings_loop, at1_eq_getElem intervals iint h1 hk, List.drop_eq_getElem_cons hk,
      List.take_succ_cons, List.flatMap_cons]
    simp only [hrec, hnext]
    cases htext : (intervals.get ⟨(iint - 1).toNat, hk⟩).text with
    | none =>
      simp only [List.get_eq_getElem] at htext hnone
      simp only [htext, hnone htext, List.nil_append, List.get_eq_getElem]
    | some label =>
      simp only [List.get_eq_getElem] at htext hbad hok
      by_cases hvalid : atoi label > 0 ∧ atoi label ≤ (ceilings.length : Int)
      · simp only [htext, hvalid, and_self, if_true, hok label htext hvalid,
          at1_of_valid ceilings (0 : ℚ) (atoi label) (by omega) hvalid.2, List.append_assoc,
          List.get_eq_getElem]
      · simp only [htext, hvalid, if_false, hbad label htext hvalid, List.nil_append,
          List.get_eq_getElem]

/-! ## The hit-test: claims C1, C2, C3 -/

/-- C1. For a click whose covering interval `(tmin, tmax)` carries a valid
candidate index `L` (between 1 and the number of ceilings), in a visible
range with `viewFrom < viewTo`, and with `d` the distance of the spec:
`v_mouse` sets the selection to `(tmin, tmax)` and reports the click as
handled, whatever the fallback handler is, if and only if `d < 0.02`; when
`d < 0.02` fails the result is exactly that of the fallback handler on the
unchanged area; a click exactly on the ceiling (`d = 0`) selects, and a click
at `d = 0.02` goes to the fallback handler. -/
theorem v_mouse_selects_iff_near_ceiling {Pic Event : Type}
    (getCandidateAtTime : FormantPath → ℚ → ℚ × ℚ × Int)
    (me : Area Pic) (event : Event) (x_world localY_fraction tmin tmax : ℚ) (L : Int)
    (hcover : getCandidateAtTime me.formantPath x_world = (tmin, tmax, L))
    (hL : 1 ≤ L ∧ L ≤ (me.formantPath.ceilings.length : Int))
    (hspan : me.prefs.spectrogram_viewFrom < me.prefs.spectrogram_viewTo) :
    ((∀ defaultMouse : Area Pic → Event → ℚ → Area Pic × Bool,
        v_mouse getCandidateAtTime defaultMouse me event x_world localY_fraction
          = .ok (setSelection me tmin tmax, true))
      ↔ hitDistance me L localY_fraction < 0.02)
    ∧ (¬ hitDistance me L localY_fraction < 0.02 →
        ∀ defaultMouse : Area Pic → Event → ℚ → Area Pic × Bool,
          v_mouse getCandidateAtTime defaultMouse me event x_world localY_fraction
            = .ok (defaultMouse me event x_world))
    ∧ (hitDistance me L localY_fraction = 0 →
        ∀ defaultMouse : Area Pic → Event → ℚ → Area Pic × Bool,
          v_mouse getCandidateAtTime defaultMouse me event x_world localY_fraction
            = .ok (setSelection me tmin tmax, true))
    ∧ (hitDistance me L localY_fraction = 0.02 →
        ∀ defaultMouse : Area Pic → Event → ℚ → Area Pic × Bool,
          v_mouse getCandidateAtTime defaultMouse me event x_world localY_fraction
            = .ok (defaultMouse me event x_world))
    ∧ (setSelection me tmin tmax).startSelection = tmin
    ∧ (setSelection me tmin tmax).endSelection = tmax := by
  have key := fun dm : Area Pic → Event → ℚ → Area Pic × Bool =>
    v_mouse_of_valid getCandidateAtTime dm me event x_world localY_fraction tmin tmax L
      hcover hL hspan
  refine ⟨⟨fun h => ?_, fun hd dm => ?_⟩, fun hd dm => ?_, fun h0 dm => ?_, fun h2 dm => ?_,
    rfl, rfl⟩
  · by_contra hd
    have h1 := h (fun _ _ _ => (me, false))
    rw [key, if_neg hd] at h1
    simp at h1
  · rw [key, if_pos hd]
  · rw [key, if_neg hd]
  · rw [key, if_pos (by rw [h0]; norm_num)]
  · rw [key, if_neg (by rw [h2]; norm_num)]

/-- An instance of C1: the first interval of the example, labelled 2, and a
click at three quarters of the height. -/
theorem v_mouse_selects_iff_near_ceiling_witness :
    demo_getCandidateAtTime demoArea.formantPath (1 / 2) = (0, 1, 2)
    ∧ ((1 : Int) ≤ 2 ∧ (2 : Int) ≤ (demoArea.formantPath.ceilings.length : Int))
    ∧ demoArea.prefs.spectrogram_viewFrom < demoArea.prefs.spectrogram_viewTo
    ∧ ((∀ defaultMouse : Area Nat → Unit → ℚ → Area Nat × Bool,
          v_mouse demo_getCandidateAtTime defaultMouse demoArea () (1 / 2) (3 / 4)
            = .ok (setSelection demoArea 0 1, true))
        ↔ hitDistance demoArea 2 (3 / 4) < 0.02) :=
  have hcover : demo_getCandidateAtTime demoArea.formantPath (1 / 2) = (0, 1, 2) := by
    have h2 : demo_Melder_atoi "2" = 2 := by decide
    norm_num [demo_getCandidateAtTime, demoArea, demoFormantPath, demoTier, List.find?, h2]
  have hL : (1 : Int) ≤ 2 ∧ (2 : Int) ≤ (demoArea.formantPath.ceilings.length : Int) := by
    simp [demoArea, demoFormantPath]
  have hspan : demoArea.prefs.spectrogram_viewFrom < demoArea.prefs.spectrogram_viewTo := by
    simp [demoArea, demoPrefs]
  ⟨hcover, hL, hspan,
    (v_mouse_selects_iff_near_ceiling demo_getCandidateAtTime demoArea () (1 / 2) (3 / 4) 0 1 2
      hcover hL hspan).1⟩

/-- A candidate number above the number of ceilings makes `v_mouse` read
outside the ceilings, whatever the click frequency and the fallback handler. -/
theorem v_mouse_of_large {Pic Event : Type}
    (getCandidateAtTime : FormantPath → ℚ → ℚ × ℚ × Int)
    (defaultMouse : Area Pic → Event → ℚ → Area Pic × Bool)
    (me : Area Pic) (event : Event) (x_world localY_fraction : ℚ)
    (h : (me.formantPath.ceilings.length : Int) < (getCandidateAtTime me.formantPath x_world).2.2) :
    v_mouse getCandidateAtTime defaultMouse me event x_world localY_fraction
      = .error .outOfBounds := by
  have hpos : (getCandidateAtTime me.formantPath x_world).2.2 > 0 := by omega
  unfold v_mouse
  simp only [hpos, if_true, at1_of_large _ _ h]

/-- C2. The code at a label that names no candidate because it is too large:
the tier of the example with the label 7 and five ceilings. The lookup gives
candidate 7, and `v_mouse` reads ceiling 7 of 5 instead of going to the
fallback handler, at every click frequency. -/
theorem v_mouse_label_above_N_reads_outside :
    demoAreaLabel7.formantPath.ceilings.length = 5
    ∧ demo_getCandidateAtTime demoAreaLabel7.formantPath (1 / 2) = (0, 2, 7)
    ∧ (∀ localY_fraction : ℚ,
        v_mouse demo_getCandidateAtTime demo_defaultMouse demoAreaLabel7 () (1 / 2) localY_fraction
          = .error .outOfBounds)
    ∧ (∀ localY_fraction : ℚ,
        v_mouse demo_getCandidateAtTime demo_defaultMouse demoAreaLabel7 () (1 / 2) localY_fraction
          ≠ .ok (demo_defaultMouse demoAreaLabel7 () (1 / 2))) := by
  have h7 : demo_Melder_atoi "7" = 7 := by decide
  have hcover : demo_getCandidateAtTime demoAreaLabel7.formantPath (1 / 2) = (0, 2, 7) := by
    norm_num [demo_getCandidateAtTime, demoAreaLabel7, demoFormantPath, demoTierLabel7,
      List.find?, h7]
  have hlen : demoAreaLabel7.formantPath.ceilings.length = 5 := by
    simp [demoAreaLabel7, demoFormantPath]
  have hout : ∀ localY_fraction : ℚ,
      v_mouse demo_getCandidateAtTime demo_defaultMouse demoAreaLabel7 () (1 / 2) localY_fraction
        = .error .outOfBounds := fun y =>
    v_mouse_of_large demo_getCandidateAtTime demo_defaultMouse demoAreaLabel7 () (1 / 2) y
      (by rw [hcover, hlen]; norm_num)
  exact ⟨hlen, hcover, hout, fun y hy => by rw [hout y] at hy; cases hy⟩

/-- C3, as stated, fails: a click near the ceiling of the first interval of
the example changes the selection of the area, from the cursor at 3/2 to the
interval from 0 to 1. -/
theorem v_mouse_changes_selection :
    v_mouse demo_getCandidateAtTime demo_defaultMouse demoArea () (1 / 2) (3 / 4)
      = .ok (setSelection demoArea 0 1, true)
    ∧ (demoArea.startSelection, demoArea.endSelection) = (3 / 2, 3 / 2)
    ∧ ((setSelection demoArea 0 1).startSelection, (setSelection demoArea 0 1).endSelection) = (0, 1)
    ∧ (setSelection demoArea 0 1).startSelection ≠ demoArea.startSelection := by
  have h2 : demo_Melder_atoi "2" = 2 := by decide
  have hcover : demo_getCandidateAtTime demoArea.formantPath (1 / 2) = (0, 1, 2) := by
    norm_num [demo_getCandidateAtTime, demoArea, demoFormantPath, demoTier, List.find?, h2]
  have hL : (1 : Int) ≤ 2 ∧ (2 : Int) ≤ (demoArea.formantPath.ceilings.length : Int) := by
    simp [demoArea, demoFormantPath]
  have hspan : demoArea.prefs.spectrogram_viewFrom < demoArea.prefs.spectrogram_viewTo := by
    simp [demoArea, demoPrefs]
  have hd : hitDistance demoArea 2 (3 / 4) < 0.02 := by
    have hidx : Int.toNat 2 - 1 = 1 := by decide
    norm_num [hitDistance, normalizedDistance, clickFrequency, demoArea, demoFormantPath,
      demoPrefs, hidx, abs_of_pos]
  refine ⟨?_, ?_, ?_, ?_⟩
  · rw [v_mouse_of_valid demo_getCandidateAtTime demo_defaultMouse demoArea () (1 / 2) (3 / 4)
      0 1 2 hcover hL hspan, if_pos hd]
  · simp [demoArea]
  · simp [setSelection]
  · norm_num [setSelection, demoArea]

/-- C3, amended. For a click whose covering interval `(tmin, tmax)` carries
a candidate number `L` that does not exceed the number of ceilings, with `d`
the distance of the spec: if `1 ≤ L`, the visible range has
`viewFrom < viewTo` and `d < 0.02`, then `v_mouse` itself sets the selection
to `(tmin, tmax)` and reports the click as handled; if `1 ≤ L`,
`viewFrom < viewTo` and `d < 0.02` fails, or if `L < 1`, or if the visible
range has `viewFrom = viewTo`, then it changes nothing itself and returns
what the fallback handler returns on the unchanged area. There is no third
outcome. Setting the selection leaves the preferences, the candidate set with
its tier, the active track, the sound and the window as they were. -/
theorem v_mouse_frame {Pic Event : Type}
    (getCandidateAtTime : FormantPath → ℚ → ℚ × ℚ × Int)
    (defaultMouse : Area Pic → Event → ℚ → Area Pic × Bool)
    (me : Area Pic) (event : Event) (x_world localY_fraction tmin tmax : ℚ) (L : Int)
    (hcover : getCandidateAtTime me.formantPath x_world = (tmin, tmax, L))
    (hN : L ≤ (me.formantPath.ceilings.length : Int)) :
    (1 ≤ L → me.prefs.spectrogram_viewFrom < me.prefs.spectrogram_viewTo →
      hitDistance me L localY_fraction < 0.02 →
      v_mouse getCandidateAtTime defaultMouse me event x_world localY_fraction
        = .ok (setSelection me tmin tmax, true))
    ∧ (1 ≤ L → me.prefs.spectrogram_viewFrom < me.prefs.spectrogram_viewTo →
        ¬ hitDistance me L localY_fraction < 0.02 →
        v_mouse getCandidateAtTime defaultMouse me event x_world localY_fraction
          = .ok (defaultMouse me event x_world))
    ∧ (L < 1 →
        v_mouse getCandidateAtTime defaultMouse me event x_world localY_fraction
          = .ok (defaultMouse me event x_world))
    ∧ (me.prefs.spectrogram_viewFrom = me.prefs.spectrogram_viewTo →
        v_mouse getCandidateAtTime defaultMouse me event x_world localY_fraction
          = .ok (defaultMouse me event x_world))
    ∧ (v_mouse getCandidateAtTime defaultMouse me event x_world localY_fraction
          = .ok (setSelection me tmin tmax, true)
        ∨ v_mouse getCandidateAtTime defaultMouse me event x_world localY_fraction
          = .ok (defaultMouse me event x_world))
    ∧ (∀ t1 t2 : ℚ,
        (setSelection me t1 t2).formantPath = me.formantPath
        ∧ (setSelection me t1 t2).d_formant = me.d_formant
        ∧ (setSelection me t1 t2).prefs = me.prefs
        ∧ (setSelection me t1 t2).picturePrefs = me.picturePrefs
        ∧ (setSelection me t1 t2).sound = me.sound
        ∧ (setSelection me t1 t2).startWindow = me.startWindow
        ∧ (setSelection me t1 t2).endWindow = me.endWindow
        ∧ (setSelection me t1 t2).startSelection = t1
        ∧ (setSelection me t1 t2).endSelection = t2) := by
  refine ⟨fun h1 hspan hd => ?_, fun h1 hspan hd => ?_, fun hlt => ?_, fun hzero => ?_, ?_,
    fun _ _ => ⟨rfl, rfl, rfl, rfl, rfl, rfl, rfl, rfl, rfl⟩⟩
  · rw [v_mouse_of_valid getCandidateAtTime defaultMouse me event x_world localY_fraction
      tmin tmax L hcover ⟨h1, hN⟩ hspan, if_pos hd]
  · rw [v_mouse_of_valid getCandidateAtTime defaultMouse me event x_world localY_fraction
      tmin tmax L hcover ⟨h1, hN⟩ hspan, if_neg hd]
  · have hpos : ¬ L > 0 := by omega
    unfold v_mouse
    simp only [hcover, hpos, if_false]
  · unfold v_mouse
    simp only [hcover]
    by_cases hpos : L > 0
    · simp only [hpos, if_true, at1_of_valid _ (0 : ℚ) L (by omega) hN, fabs_div_lt, hzero,
        sub_self, if_true]
      rfl
    · simp only [hpos, if_false]
  · unfold v_mouse
    simp only [hcover]
    by_cases hpos : L > 0
    · simp only [hpos, if_true, at1_of_valid _ (0 : ℚ) L (by omega) hN]
      split <;> simp
    · simp [hpos]

/-- An instance of the amended C3 on the example: in the first interval,
labelled 2, a click at three quarters of the height selects the interval, and
a click at one quarter of the height goes to the fallback handler. -/
theorem v_mouse_frame_witness :
    demo_getCandidateAtTime demoArea.formantPath (1 / 2) = (0, 1, 2)
    ∧ (2 : Int) ≤ (demoArea.formantPath.ceilings.length : Int)
    ∧ demoArea.prefs.spectrogram_viewFrom < demoArea.prefs.spectrogram_viewTo
    ∧ hitDistance demoArea 2 (3 / 4) < 0.02
    ∧ v_mouse demo_getCandidateAtTime demo_defaultMouse demoArea () (1 / 2) (3 / 4)
        = .ok (setSelection demoArea 0 1, true)
    ∧ ¬ hitDistance demoArea 2 (1 / 4) < 0.02
    ∧ v_mouse demo_getCandidateAtTime demo_defaultMouse demoArea () (1 / 2) (1 / 4)
        = .ok (demo_defaultMouse demoArea () (1 / 2)) :=
  have h2 : demo_Melder_atoi "2" = 2 := by decide
  have hcover : demo_getCandidateAtTime demoArea.formantPath (1 / 2) = (0, 1, 2) := by
    norm_num [demo_getCandidateAtTime, demoArea, demoFormantPath, demoTier, List.find?, h2]
  have hN : (2 : Int) ≤ (demoArea.formantPath.ceilings.length : Int) := by
    simp [demoArea, demoFormantPath]
  have hspan : demoArea.prefs.spectrogram_viewFrom < demoArea.prefs.spectrogram_viewTo := by
    simp [demoArea, demoPrefs]
  have hidx : Int.toNat 2 - 1 = 1 := by decide
  have hhit : hitDistance demoArea 2 (3 / 4) < 0.02 := by
    norm_num [hitDistance, normalizedDistance, clickFrequency, demoArea, demoFormantPath,
      demoPrefs, hidx, abs_of_pos]
  have hmiss : ¬ hitDistance demoArea 2 (1 / 4) < 0.02 := by
    norm_num [hitDistance, normalizedDistance, clickFrequency, demoArea, demoFormantPath,
      demoPrefs, hidx, abs_of_pos]
  ⟨hcover, hN, hspan, hhit,
    (v_mouse_frame demo_getCandidateAtTime demo_defaultMouse demoArea () (1 / 2) (3 / 4) 0 1 2
      hcover hN).1 (by decide) hspan hhit,
    hmiss,
    (v_mouse_frame demo_getCandidateAtTime demo_defaultMouse demoArea () (1 / 2) (1 / 4) 0 1 2
      hcover hN).2.1 (by decide) hspan hmiss⟩

/-! ## Drawing: claims C4, C9 -/

/-- When the first tier is `tier` and both lookups give the number of an
interval of it, `FormantPathArea_drawCeilings` emits the commands of the
spec. -/
theorem drawCeilings_eq {Pic : Type}
    (timeToLowIndex timeToHighIndex : IntervalTier → ℚ → Int)
    (atoi : String → Int) (fixed : ℚ → Nat → String)
    (me : Area Pic) (tier : IntervalTier) (tmin tmax fmin fmax : ℚ)
    (htier : me.formantPath.path.tiers.head? = some tier)
    (hmin : 0 < timeToLowIndex tier tmin)
    (hmax : 0 < timeToHighIndex tier tmax)
    (hsize : timeToHighIndex tier tmax ≤ (tier.intervals.length : Int)) :
    FormantPathArea_drawCeilings timeToLowIndex timeToHighIndex atoi fixed me tmin tmax fmin fmax
      = .ok (ceilingCommands atoi fixed me.formantPath.ceilings tier.intervals
          (timeToLowIndex tier tmin) (timeToHighIndex tier tmax) tmin tmax fmin fmax) := by
  have hat : at1 me.formantPath.path.tiers 1 = .ok tier := by
    unfold at1
    cases hts : me.formantPath.path.tiers with
    | nil => rw [hts] at htier; simp at htier
    | cons t ts =>
      rw [hts] at htier
      simp only [List.head?_cons, Option.some.injEq] at htier
      simp [htier]
  have hloop := drawCeilings_loop_eq atoi fixed me.formantPath.ceilings tier.intervals
    (timeToHighIndex tier tmax + 1 - timeToLowIndex tier tmin).toNat (timeToLowIndex tier tmin)
    [GraphicsCmd.setWindow tmin tmax fmin fmax,
     GraphicsCmd.setTextAlignment kGraphics_horizontalAlignment.CENTRE VerticalAlignment.BASELINE,
     GraphicsCmd.setColour MelderColour.RED,
     GraphicsCmd.setLineWidth 3.0]
    (by omega) (fun hn => by omega)
  have h3 : (3.0 : ℚ) = 3 := by norm_num
  have h1 : (1.0 : ℚ) = 1 := by norm_num
  unfold FormantPathArea_drawCeilings
  simp only [hat, hmin, hmax, gt_iff_lt, and_self, if_true, hloop]
  simp only [ceilingCommands, intervalsBetween, h3, h1]

/-- C4. For every tier (the first of the path) and visible window for which
the two lookups give interval numbers `minIndex` and `maxIndex` of the tier,
`FormantPathArea_drawCeilings` succeeds and emits: the set-up of the window,
alignment, colour and line width; then, for the intervals numbered
`minIndex .. maxIndex` in tier order, for each whose label reads as an `L`
with `1 ≤ L ≤ N` exactly one line from `(xmin, ceilings[L])` to
`(xmax, ceilings[L])` and one text centred at `(xmin + xmax) / 2`, and
nothing for an interval whose label is null or reads as a number outside
`1 .. N`; then the line width 1. Success means that every read of `ceilings`
was inside `1 .. N`. -/
theorem drawCeilings_one_line_and_label_per_valid_interval {Pic : Type}
    (timeToLowIndex timeToHighIndex : IntervalTier → ℚ → Int)
    (atoi : String → Int) (fixed : ℚ → Nat → String)
    (me : Area Pic) (tier : IntervalTier) (tmin tmax fmin fmax : ℚ)
    (htier : me.formantPath.path.tiers.head? = some tier)
    (hmin : 0 < timeToLowIndex tier tmin)
    (hmax : 0 < timeToHighIndex tier tmax)
    (hsize : timeToHighIndex tier tmax ≤ (tier.intervals.length : Int)) :
    FormantPathArea_drawCeilings timeToLowIndex timeToHighIndex atoi fixed me tmin tmax fmin fmax
      = .ok ([GraphicsCmd.setWindow tmin tmax fmin fmax,
              GraphicsCmd.setTextAlignment kGraphics_horizontalAlignment.CENTRE
                VerticalAlignment.BASELINE,
              GraphicsCmd.setColour MelderColour.RED,
              GraphicsCmd.setLineWidth 3]
          ++ (intervalsBetween tier.intervals (timeToLowIndex tier tmin)
                (timeToHighIndex tier tmax)).flatMap
              (intervalCommands atoi fixed me.formantPath.ceilings)
          ++ [GraphicsCmd.setLineWidth 1])
    ∧ (∀ (textInterval : TextInterval) (label : String), textInterval.text = some label →
        1 ≤ atoi label → atoi label ≤ (me.formantPath.ceilings.length : Int) →
        at1 me.formantPath.ceilings (atoi label)
            = .ok (me.formantPath.ceilings.getD ((atoi label).toNat - 1) 0)
        ∧ intervalCommands atoi fixed me.formantPath.ceilings textInterval
          = [GraphicsCmd.line textInterval.xmin
               (me.formantPath.ceilings.getD ((atoi label).toNat - 1) 0) textInterval.xmax
               (me.formantPath.ceilings.getD ((atoi label).toNat - 1) 0),
             GraphicsCmd.text ((textInterval.xmin + textInterval.xmax) / 2)
               (me.formantPath.ceilings.getD ((atoi label).toNat - 1) 0 + 50)
               (fixed (me.formantPath.ceilings.getD ((atoi label).toNat - 1) 0) 0)])
    ∧ (∀ textInterval : TextInterval,
        (textInterval.text = none
          ∨ ∃ label, textInterval.text = some label
              ∧ ¬ (1 ≤ atoi label ∧ atoi label ≤ (me.formantPath.ceilings.length : Int))) →
        intervalCommands atoi fixed me.formantPath.ceilings textInterval = []) := by
  refine ⟨?_, fun ti label ht h1 h2 => ⟨at1_of_valid _ _ _ h1 h2, ?_⟩, fun ti h => ?_⟩
  · rw [drawCeilings_eq timeToLowIndex timeToHighIndex atoi fixed me tier tmin tmax fmin fmax
      htier hmin hmax hsize]
    rfl
  · simp [intervalCommands, validLabelIndex, ht, h1, h2]
  · rcases h with h | ⟨label, ht, hbad⟩
    · simp [intervalCommands, validLabelIndex, h]
    · simp only [intervalCommands, validLabelIndex, ht, hbad, if_false]

theorem demo_lookups :
    demoArea.formantPath.path.tiers.head? = some demoTier
    ∧ demo_timeToLowIndex demoTier demoArea.startWindow = 1
    ∧ demo_timeToHighIndex demoTier demoArea.endWindow = 2
    ∧ demoTier.intervals.length = 2 := by
  refine ⟨rfl, ?_, ?_, rfl⟩
  · norm_num [demo_timeToLowIndex, demoTier, demoArea, List.filter]
  · norm_num [demo_timeToHighIndex, demoTier, demoArea, List.filter]

/-- An instance of C4: the two intervals of the example in the window from 0
to 2. -/
theorem drawCeilings_one_line_and_label_per_valid_interval_witness :
    demoArea.formantPath.path.tiers.head? = some demoTier
    ∧ 0 < demo_timeToLowIndex demoTier 0
    ∧ 0 < demo_timeToHighIndex demoTier 2
    ∧ demo_timeToHighIndex demoTier 2 ≤ (demoTier.intervals.length : Int)
    ∧ FormantPathArea_drawCeilings demo_timeToLowIndex demo_timeToHighIndex demo_Melder_atoi
        demo_Melder_fixed demoArea 0 2 0 6000
      = .ok ([GraphicsCmd.setWindow 0 2 0 6000,
              GraphicsCmd.setTextAlignment kGraphics_horizontalAlignment.CENTRE
                VerticalAlignment.BASELINE,
              GraphicsCmd.setColour MelderColour.RED,
              GraphicsCmd.setLineWidth 3]
          ++ (intervalsBetween demoTier.intervals (demo_timeToLowIndex demoTier 0)
                (demo_timeToHighIndex demoTier 2)).flatMap
              (intervalCommands demo_Melder_atoi demo_Melder_fixed demoArea.formantPath.ceilings)
          ++ [GraphicsCmd.setLineWidth 1]) :=
  have hlow : demo_timeToLowIndex demoTier 0 = 1 := demo_lookups.2.1
  have hhigh : demo_timeToHighIndex demoTier 2 = 2 := demo_lookups.2.2.1
  have h1 : 0 < demo_timeToLowIndex demoTier 0 := by rw [hlow]; decide
  have h2 : 0 < demo_timeToHighIndex demoTier 2 := by rw [hhigh]; decide
  have h3 : demo_timeToHighIndex demoTier 2 ≤ (demoTier.intervals.length : Int) := by
    rw [hhigh]; decide
  ⟨rfl, h1, h2, h3,
    (drawCeilings_one_line_and_label_per_valid_interval demo_timeToLowIndex demo_timeToHighIndex
      demo_Melder_atoi demo_Melder_fixed demoArea demoTier 0 2 0 6000 rfl h1 h2 h3).1⟩

/-- C9. When the show-formants flag is false, `v_draw_analysis_formants`
emits no command at all, whatever the collaborators are. When the flag is
true (and the lookups of the window give interval numbers of the first tier)
it emits, in this order: red and the speckle size, the speckles of the active
track `d_formant`, pink, the commands of the ceilings, whose last one sets
the line width to 1, and finally the colour black. -/
theorem v_draw_analysis_formants_gated {Pic : Type}
    (timeToLowIndex timeToHighIndex : IntervalTier → ℚ → Int)
    (atoi : String → Int) (fixed : ℚ → Nat → String)
    (fromColourName : String → MelderColour)
    (drawSpeckles_inside :
      Formant → ℚ → ℚ → ℚ → ℚ → ℚ → MelderColour → MelderColour → Bool → List GraphicsCmd)
    (me : Area Pic) (tier : IntervalTier) :
    (me.prefs.formant_show = false →
      v_draw_analysis_formants timeToLowIndex timeToHighIndex atoi fixed fromColourName
        drawSpeckles_inside me = .ok [])
    ∧ (me.prefs.formant_show = true →
        me.formantPath.path.tiers.head? = some tier →
        0 < timeToLowIndex tier me.startWindow →
        0 < timeToHighIndex tier me.endWindow →
        timeToHighIndex tier me.endWindow ≤ (tier.intervals.length : Int) →
        v_draw_analysis_formants timeToLowIndex timeToHighIndex atoi fixed fromColourName
          drawSpeckles_inside me
        = .ok ([GraphicsCmd.setColour MelderColour.RED,
                GraphicsCmd.setSpeckleSize me.prefs.formant_dotSize]
            ++ drawSpeckles_inside me.d_formant me.startWindow me.endWindow
                me.prefs.spectrogram_viewFrom me.prefs.spectrogram_viewTo
                me.prefs.formant_dynamicRange (fromColourName me.prefs.formant_path_oddColour)
                (fromColourName me.prefs.formant_path_evenColour) true
            ++ [GraphicsCmd.setColour MelderColour.PINK,
                GraphicsCmd.setWindow me.startWindow me.endWindow
                  me.prefs.spectrogram_viewFrom me.prefs.spectrogram_viewTo,
                GraphicsCmd.setTextAlignment kGraphics_horizontalAlignment.CENTRE
                  VerticalAlignment.BASELINE,
                GraphicsCmd.setColour MelderColour.RED,
                GraphicsCmd.setLineWidth 3]
            ++ (intervalsBetween tier.intervals (timeToLowIndex tier me.startWindow)
                  (timeToHighIndex tier me.endWindow)).flatMap
                (intervalCommands atoi fixed me.formantPath.ceilings)
            ++ [GraphicsCmd.setLineWidth 1, GraphicsCmd.setColour MelderColour.BLACK])) := by
  refine ⟨fun hshow => ?_, fun hshow htier hmin hmax hsize => ?_⟩
  · simp [v_draw_analysis_formants, hshow]
  · unfold v_draw_analysis_formants
    rw [if_pos hshow]
    simp only [drawCeilings_eq timeToLowIndex timeToHighIndex atoi fixed me tier _ _ _ _
      htier hmin hmax hsize, ceilingCommands]
    simp

/-- An instance of C9: the example with the formants hidden draws nothing;
with the formants shown it draws the speckles, then the ceilings. -/
theorem v_draw_analysis_formants_gated_witness :
    demoAreaHidden.prefs.formant_show = false
    ∧ v_draw_analysis_formants demo_timeToLowIndex demo_timeToHighIndex demo_Melder_atoi
        demo_Melder_fixed demo_fromColourName demo_drawSpeckles_inside demoAreaHidden = .ok []
    ∧ demoArea.prefs.formant_show = true
    ∧ v_draw_analysis_formants demo_timeToLowIndex demo_timeToHighIndex demo_Melder_atoi
        demo_Melder_fixed demo_fromColourName demo_drawSpeckles_inside demoArea
      = .ok ([GraphicsCmd.setColour MelderColour.RED,
              GraphicsCmd.setSpeckleSize demoArea.prefs.formant_dotSize]
          ++ demo_drawSpeckles_inside demoArea.d_formant demoArea.startWindow demoArea.endWindow
              demoArea.prefs.spectrogram_viewFrom demoArea.prefs.spectrogram_viewTo
              demoArea.prefs.formant_dynamicRange
              (demo_fromColourName demoArea.prefs.formant_path_oddColour)
              (demo_fromColourName demoArea.prefs.formant_path_evenColour) true
          ++ [GraphicsCmd.setColour MelderColour.PINK,
              GraphicsCmd.setWindow demoArea.startWindow demoArea.endWindow
                demoArea.prefs.spectrogram_viewFrom demoArea.prefs.spectrogram_viewTo,
              GraphicsCmd.setTextAlignment kGraphics_horizontalAlignment.CENTRE
                VerticalAlignment.BASELINE,
              GraphicsCmd.setColour MelderColour.RED,
              GraphicsCmd.setLineWidth 3]
          ++ (intervalsBetween demoTier.intervals (demo_timeToLowIndex demoTier demoArea.startWindow)
                (demo_timeToHighIndex demoTier demoArea.endWindow)).flatMap
              (intervalCommands demo_Melder_atoi demo_Melder_fixed demoArea.formantPath.ceilings)
          ++ [GraphicsCmd.setLineWidth 1, GraphicsCmd.setColour MelderColour.BLACK]) :=
  have h1 : 0 < demo_timeToLowIndex demoTier demoArea.startWindow := by
    rw [demo_lookups.2.1]; decide
  have h2 : 0 < demo_timeToHighIndex demoTier demoArea.endWindow := by
    rw [demo_lookups.2.2.1]; decide
  have h3 : demo_timeToHighIndex demoTier demoArea.endWindow ≤ (demoTier.intervals.length : Int) := by
    rw [demo_lookups.2.2.1]; decide
  ⟨rfl,
    (v_draw_analysis_formants_gated demo_timeToLowIndex demo_timeToHighIndex demo_Melder_atoi
      demo_Melder_fixed demo_fromColourName demo_drawSpeckles_inside demoAreaHidden demoTier).1 rfl,
    rfl,
    (v_draw_analysis_formants_gated demo_timeToLowIndex demo_timeToHighIndex demo_Melder_atoi
      demo_Melder_fixed demo_fromColourName demo_drawSpeckles_inside demoArea demoTier).2
      rfl rfl h1 h2 h3⟩

/-! ## The settings command: claims C5, C6, C7 -/

/-- What the form checks: the four POSITIVE fields and the NATURAL field,
and nothing about the time step and the middle formant ceiling. -/
theorem formantSettings_FORM_ok_iff (args : FormantSettings) :
    menu_cb_FormantSettings_FORM args = .ok ()
      ↔ (0 < args.maximumNumberOfFormants ∧ 0 < args.windowLength ∧ 0 < args.preEmphasisFrom
          ∧ 0 < args.ceilingStepSize ∧ 1 ≤ args.numberOfStepsUpDown) := by
  unfold menu_cb_FormantSettings_FORM checkPOSITIVE checkNATURAL
  by_cases h1 : 0 < args.maximumNumberOfFormants <;>
  by_cases h2 : 0 < args.windowLength <;>
  by_cases h3 : 0 < args.preEmphasisFrom <;>
  by_cases h4 : 0 < args.ceilingStepSize <;>
  by_cases h5 : 1 ≤ args.numberOfStepsUpDown <;>
  simp [h1, h2, h3, h4, h5]

/-- C5. With no sound, the body of the settings command throws "There is no
sound to analyze." for every settings input, leaves the area exactly as it
was (settings, candidate set, tier, active track) and has no effect (no
broadcast); the outcome does not depend on the analysis, which is not run.
The whole command, form included, likewise leaves the area as it was and has
no effect, and gives that error whenever the form takes the values. -/
theorem formantSettings_without_sound {Pic : Type}
    (burg : Sound → ℚ → ℚ → ℚ → ℚ → ℚ → ℚ → Int → Except MelderError FormantPath)
    (extractFormant : FormantPath → Except MelderError Formant)
    (me : Area Pic) (args : FormantSettings) (hsound : me.sound = none) :
    menu_cb_FormantSettings_DO burg extractFormant me args
      = { me := me, effects := [], result := .error (.message "There is no sound to analyze.") }
    ∧ (menu_cb_FormantSettings burg extractFormant me args).me = me
    ∧ (menu_cb_FormantSettings burg extractFormant me args).effects = []
    ∧ (menu_cb_FormantSettings_FORM args = .ok () →
        (menu_cb_FormantSettings burg extractFormant me args).result
          = .error (.message "There is no sound to analyze.")) := by
  have hdo : menu_cb_FormantSettings_DO burg extractFormant me args
      = { me := me, effects := [], result := .error (.message "There is no sound to analyze.") } := by
    simp [menu_cb_FormantSettings_DO, hsound]
  refine ⟨hdo, ?_, ?_, fun hform => ?_⟩
  · unfold menu_cb_FormantSettings
    split
    · rfl
    · rw [hdo]
  · unfold menu_cb_FormantSettings
    split
    · rfl
    · rw [hdo]
  · unfold menu_cb_FormantSettings
    rw [hform, hdo]

/-- An instance of C5 on the example without a sound. -/
theorem formantSettings_without_sound_witness :
    demoAreaNoSound.sound = none
    ∧ menu_cb_FormantSettings_DO demo_burg demo_extractFormant demoAreaNoSound demoSettings
      = { me := demoAreaNoSound, effects := [],
          result := .error (.message "There is no sound to analyze.") } :=
  ⟨rfl, (formantSettings_without_sound demo_burg demo_extractFormant demoAreaNoSound demoSettings
    rfl).1⟩

/-- C6, as stated, fails: with a time step of zero (and a sound) the command
is not rejected. With an analysis that succeeds it succeeds; with an analysis
that throws it ends in the error of the analysis; in both cases the stored
time step has changed from 1/200 to 0. -/
theorem formantSettings_zero_timeStep_not_rejected :
    demoSettingsZeroStep.timeStep ≤ 0
    ∧ demoArea.prefs.formant_path_timeStep = 1 / 200
    ∧ (menu_cb_FormantSettings demo_burg demo_extractFormant demoArea demoSettingsZeroStep).result
        = .ok ()
    ∧ (menu_cb_FormantSettings demo_burg demo_extractFormant demoArea
        demoSettingsZeroStep).me.prefs.formant_path_timeStep = 0
    ∧ (menu_cb_FormantSettings demo_burg_fails demo_extractFormant demoArea
        demoSettingsZeroStep).result = .error (.message "The analysis failed.")
    ∧ (menu_cb_FormantSettings demo_burg_fails demo_extractFormant demoArea
        demoSettingsZeroStep).me.prefs.formant_path_timeStep = 0 := by
  have hform : menu_cb_FormantSettings_FORM demoSettingsZeroStep = .ok () := by
    rw [formantSettings_FORM_ok_iff]
    norm_num [demoSettingsZeroStep, demoSettings]
  have hcmd : ∀ burg : Sound → ℚ → ℚ → ℚ → ℚ → ℚ → ℚ → Int → Except MelderError FormantPath,
      menu_cb_FormantSettings burg demo_extractFormant demoArea demoSettingsZeroStep
        = menu_cb_FormantSettings_DO burg demo_extractFormant demoArea demoSettingsZeroStep := by
    intro burg
    unfold menu_cb_FormantSettings
    rw [hform]
  refine ⟨?_, ?_, ?_, ?_, ?_, ?_⟩
  · simp [demoSettingsZeroStep]
  · simp [demoArea, demoPrefs]
  · rw [hcmd]
    simp [menu_cb_FormantSettings_DO, demoArea, demo_burg, demo_extractFormant,
      replaceCandidates, demoResult]
  · rw [hcmd]
    simp [menu_cb_FormantSettings_DO, demoArea, demo_burg, demo_extractFormant,
      replaceCandidates, demoResult, storeFormantSettings, demoSettingsZeroStep]
  · rw [hcmd]
    simp [menu_cb_FormantSettings_DO, demoArea, demo_burg_fails]
  · rw [hcmd]
    simp [menu_cb_FormantSettings_DO, demoArea, demo_burg_fails, storeFormantSettings,
      demoSettingsZeroStep]

/-- C6, amended. For every settings input in which the maximum number of
formants, the window length, the pre-emphasis cutoff or the ceiling step size
is not positive, or the number of steps is below 1, the form rejects the
command with the error of a form field, and the area is exactly as before
(stored settings, candidate set, tier, active track), with no effect and no
run of the analysis. The form accepts exactly the inputs in which those five
are in range: the time step and the middle ceiling are not checked. -/
theorem formantSettings_rejects_invalid_field {Pic : Type}
    (burg : Sound → ℚ → ℚ → ℚ → ℚ → ℚ → ℚ → Int → Except MelderError FormantPath)
    (extractFormant : FormantPath → Except MelderError Formant)
    (me : Area Pic) (args : FormantSettings)
    (hinvalid : args.maximumNumberOfFormants ≤ 0 ∨ args.windowLength ≤ 0
      ∨ args.preEmphasisFrom ≤ 0 ∨ args.ceilingStepSize ≤ 0 ∨ args.numberOfStepsUpDown < 1) :
    (∃ label : String, menu_cb_FormantSettings burg extractFormant me args
        = { me := me, effects := [], result := .error (.formField label) })
    ∧ (menu_cb_FormantSettings_FORM args = .ok ()
        ↔ (0 < args.maximumNumberOfFormants ∧ 0 < args.windowLength ∧ 0 < args.preEmphasisFrom
            ∧ 0 < args.ceilingStepSize ∧ 1 ≤ args.numberOfStepsUpDown)) := by
  refine ⟨?_, formantSettings_FORM_ok_iff args⟩
  have hform : ∃ label : String, menu_cb_FormantSettings_FORM args = .error (.formField label) := by
    unfold menu_cb_FormantSettings_FORM checkPOSITIVE checkNATURAL
    by_cases h1 : 0 < args.maximumNumberOfFormants
    · by_cases h2 : 0 < args.windowLength
      · by_cases h3 : 0 < args.preEmphasisFrom
        · by_cases h4 : 0 < args.ceilingStepSize
          · have h5 : ¬ 1 ≤ args.numberOfStepsUpDown := by
              rcases hinvalid with h | h | h | h | h
              · exact absurd h1 (not_lt.mpr h)
              · exact absurd h2 (not_lt.mpr h)
              · exact absurd h3 (not_lt.mpr h)
              · exact absurd h4 (not_lt.mpr h)
              · omega
            exact ⟨"Number of steps up / down", by simp [h1, h2, h3, h4, h5]⟩
          · exact ⟨"Ceiling step size", by simp [h1, h2, h3, h4]⟩
        · exact ⟨"Pre-emphasis from (Hz)", by simp [h1, h2, h3]⟩
      · exact ⟨"Window length (s)", by simp [h1, h2]⟩
    · exact ⟨"Max. number of formants", by simp [h1]⟩
  obtain ⟨label, hlabel⟩ := hform
  exact ⟨label, by unfold menu_cb_FormantSettings; rw [hlabel]⟩

/-- An instance of the amended C6: a negative window length. -/
theorem formantSettings_rejects_invalid_field_witness :
    (demoSettingsBadWindow.maximumNumberOfFormants ≤ 0 ∨ demoSettingsBadWindow.windowLength ≤ 0
      ∨ demoSettingsBadWindow.preEmphasisFrom ≤ 0 ∨ demoSettingsBadWindow.ceilingStepSize ≤ 0
      ∨ demoSettingsBadWindow.numberOfStepsUpDown < 1)
    ∧ ∃ label : String, menu_cb_FormantSettings demo_burg demo_extractFormant demoArea
        demoSettingsBadWindow
        = { me := demoArea, effects := [], result := .error (.formField label) } :=
  have h : demoSettingsBadWindow.maximumNumberOfFormants ≤ 0 ∨ demoSettingsBadWindow.windowLength ≤ 0
      ∨ demoSettingsBadWindow.preEmphasisFrom ≤ 0 ∨ demoSettingsBadWindow.ceilingStepSize ≤ 0
      ∨ demoSettingsBadWindow.numberOfStepsUpDown < 1 :=
    Or.inr (Or.inl (by norm_num [demoSettingsBadWindow]))
  ⟨h, (formantSettings_rejects_invalid_field demo_burg demo_extractFormant demoArea
    demoSettingsBadWindow h).1⟩

/-- C7. For a settings input that the form takes, with a sound bound, an
analysis that returns `result` and a projection of the replaced path that
returns `formant`: the command succeeds; the area afterwards is the old one
with the seven values stored, the sampling (`nx`, `dx`, `x1`), the
candidates, the ceilings and the path of `result` in place of the old ones,
and `formant` as active track; the form will show the submitted values the
next time; and the effects are exactly one data-changed broadcast, made on
the area as it is after the replacement. -/
theorem formantSettings_success {Pic : Type}
    (burg : Sound → ℚ → ℚ → ℚ → ℚ → ℚ → ℚ → Int → Except MelderError FormantPath)
    (extractFormant : FormantPath → Except MelderError Formant)
    (me : Area Pic) (args : FormantSettings) (sound : Sound) (result : FormantPath)
    (formant : Formant)
    (hform : menu_cb_FormantSettings_FORM args = .ok ())
    (hsound : me.sound = some sound)
    (hburg : burg sound args.timeStep args.maximumNumberOfFormants args.middleFormantCeiling
      args.windowLength args.preEmphasisFrom args.ceilingStepSize args.numberOfStepsUpDown
      = .ok result)
    (hextract : extractFormant (replaceCandidates me.formantPath result) = .ok formant) :
    (menu_cb_FormantSettings burg extractFormant me args).result = .ok ()
    ∧ (menu_cb_FormantSettings burg extractFormant me args).me
        = { me with
            prefs := storeFormantSettings me.prefs args
            formantPath := replaceCandidates me.formantPath result
            d_formant := formant }
    ∧ (menu_cb_FormantSettings burg extractFormant me args).me.formantPath.nx = result.nx
    ∧ (menu_cb_FormantSettings burg extractFormant me args).me.formantPath.dx = result.dx
    ∧ (menu_cb_FormantSettings burg extractFormant me args).me.formantPath.x1 = result.x1
    ∧ (menu_cb_FormantSettings burg extractFormant me args).me.formantPath.formantCandidates
        = result.formantCandidates
    ∧ (menu_cb_FormantSettings burg extractFormant me args).me.formantPath.ceilings
        = result.ceilings
    ∧ (menu_cb_FormantSettings burg extractFormant me args).me.formantPath.path = result.path
    ∧ extractFormant (menu_cb_FormantSettings burg extractFormant me args).me.formantPath
        = .ok (menu_cb_FormantSettings burg extractFormant me args).me.d_formant
    ∧ menu_cb_FormantSettings_OK (menu_cb_FormantSettings burg extractFormant me args).me = args
    ∧ (menu_cb_FormantSettings burg extractFormant me args).effects
        = [Effect.broadcastDataChanged (menu_cb_FormantSettings burg extractFormant me args).me] := by
  have hout : menu_cb_FormantSettings burg extractFormant me args
      = { me := { me with
                  prefs := storeFormantSettings me.prefs args
                  formantPath := replaceCandidates me.formantPath result
                  d_formant := formant }
          effects := [Effect.broadcastDataChanged
            { me with
              prefs := storeFormantSettings me.prefs args
              formantPath := replaceCandidates me.formantPath result
              d_formant := formant }]
          result := .ok () } := by
    unfold menu_cb_FormantSettings
    rw [hform]
    simp only [menu_cb_FormantSettings_DO, hsound, hburg, hextract]
  rw [hout]
  refine ⟨rfl, rfl, rfl, rfl, rfl, rfl, rfl, rfl, hextract, rfl, rfl⟩

/-- An instance of C7 on the example. -/
theorem formantSettings_success_witness :
    menu_cb_FormantSettings_FORM demoSettings = .ok ()
    ∧ demoArea.sound = some demoSound
    ∧ demo_burg demoSound demoSettings.timeStep demoSettings.maximumNumberOfFormants
        demoSettings.middleFormantCeiling demoSettings.windowLength demoSettings.preEmphasisFrom
        demoSettings.ceilingStepSize demoSettings.numberOfStepsUpDown = .ok demoResult
    ∧ demo_extractFormant (replaceCandidates demoArea.formantPath demoResult) = .ok demoFormant
    ∧ (menu_cb_FormantSettings demo_burg demo_extractFormant demoArea demoSettings).result = .ok ()
    ∧ (menu_cb_FormantSettings demo_burg demo_extractFormant demoArea demoSettings).me
        = { demoArea with
            prefs := storeFormantSettings demoArea.prefs demoSettings
            formantPath := replaceCandidates demoArea.formantPath demoResult
            d_formant := demoFormant } :=
  have hform : menu_cb_FormantSettings_FORM demoSettings = .ok () := by
    rw [formantSettings_FORM_ok_iff]
    norm_num [demoSettings]
  have h := formantSettings_success demo_burg demo_extractFormant demoArea demoSettings demoSound
    demoResult demoFormant hform rfl rfl rfl
  ⟨hform, rfl, rfl, rfl, h.1, h.2.1⟩

/-! ## The picture command: claim C10 -/

/-- C10. The body of the draw-visible-formant-contour command throws "No
formant contour is visible..." if and only if the show-formants flag is
false. On that failure it has no effect: the picture is not opened and
nothing is drawn. In every case the garnish preference afterwards is the
submitted value, so a failed command whose submitted value differs from the
stored one leaves the area changed. With the flag true the command succeeds
and opens the picture, draws the speckles, garnishes and closes. -/
theorem drawVisibleFormantContour_refusal {Pic : Type}
    (v_do_pictureWindow v_do_pictureMargins v_do_pictureSelection : Pic → Pic)
    (me : Area Pic) (garnish : Bool) :
    ((menu_cb_DrawVisibleFormantContour_DO v_do_pictureWindow v_do_pictureMargins
          v_do_pictureSelection me garnish).result = .error (.message noFormantContourVisible)
        ↔ me.prefs.formant_show = false)
    ∧ ((menu_cb_DrawVisibleFormantContour_DO v_do_pictureWindow v_do_pictureMargins
          v_do_pictureSelection me garnish).result ≠ .ok ()
        ↔ me.prefs.formant_show = false)
    ∧ (me.prefs.formant_show = false →
        (menu_cb_DrawVisibleFormantContour_DO v_do_pictureWindow v_do_pictureMargins
          v_do_pictureSelection me garnish).effects = [])
    ∧ (menu_cb_DrawVisibleFormantContour_DO v_do_pictureWindow v_do_pictureMargins
          v_do_pictureSelection me garnish).me.prefs.formant_picture_garnish = garnish
    ∧ (me.prefs.formant_show = false → me.prefs.formant_picture_garnish ≠ garnish →
        (menu_cb_DrawVisibleFormantContour_DO v_do_pictureWindow v_do_pictureMargins
          v_do_pictureSelection me garnish).me ≠ me)
    ∧ (me.prefs.formant_show = true →
        (menu_cb_DrawVisibleFormantContour_DO v_do_pictureWindow v_do_pictureMargins
          v_do_pictureSelection me garnish).effects
          = [Effect.openPraatPicture,
             Effect.drawSpeckles me.d_formant me.startWindow me.endWindow
               me.prefs.spectrogram_viewTo me.prefs.formant_dynamicRange garnish,
             Effect.garnishPicture,
             Effect.closePraatPicture]) := by
  cases hshow : me.prefs.formant_show with
  | false =>
    refine ⟨?_, ?_, ?_, ?_, ?_, ?_⟩
    · simp [menu_cb_DrawVisibleFormantContour_DO, hshow]
    · simp [menu_cb_DrawVisibleFormantContour_DO, hshow]
    · simp [menu_cb_DrawVisibleFormantContour_DO, hshow]
    · simp [menu_cb_DrawVisibleFormantContour_DO, hshow]
    · intro _ hne heq
      apply hne
      have h := congrArg (fun a : Area Pic => a.prefs.formant_picture_garnish) heq
      simp [menu_cb_DrawVisibleFormantContour_DO, hshow] at h
      exact h.symm
    · intro h; cases h
  | true =>
    refine ⟨?_, ?_, ?_, ?_, ?_, ?_⟩
    · simp [menu_cb_DrawVisibleFormantContour_DO, hshow]
    · simp [menu_cb_DrawVisibleFormantContour_DO, hshow]
    · intro h; cases h
    · simp [menu_cb_DrawVisibleFormantContour_DO, hshow]
    · intro h; cases h
    · simp [menu_cb_DrawVisibleFormantContour_DO, hshow]

/-- An instance of C10: the example with the formants hidden and the garnish
switched off in the form. -/
theorem drawVisibleFormantContour_refusal_witness :
    demoAreaHidden.prefs.formant_show = false
    ∧ demoAreaHidden.prefs.formant_picture_garnish ≠ false
    ∧ (menu_cb_DrawVisibleFormantContour_DO (fun p => p + 1) (fun p => p + 2) (fun p => p + 4)
        demoAreaHidden false).effects = []
    ∧ (menu_cb_DrawVisibleFormantContour_DO (fun p => p + 1) (fun p => p + 2) (fun p => p + 4)
        demoAreaHidden false).me ≠ demoAreaHidden :=
  have h := drawVisibleFormantContour_refusal (fun p => p + 1) (fun p => p + 2) (fun p => p + 4)
    demoAreaHidden false
  have hg : demoAreaHidden.prefs.formant_picture_garnish ≠ false := by
    simp [demoAreaHidden, demoPrefs]
  ⟨rfl, hg, h.2.2.1 rfl, h.2.2.2.2.1 rfl hg⟩

/-! ## The listing: claim C8 -/

/-- The line that the code writes is the row of the spec. -/
theorem formantListing_line_eq (getValueAtTime : Formant → Int → ℚ → kFormant_unit → ℚ)
    (fixed : ℚ → Nat → String) (formant : Formant) (t : ℚ) :
    formantListing_line getValueAtTime fixed formant t
      = listingRow getValueAtTime fixed formant t := by
  simp [formantListing_line, listingRow, String.intercalate, String.intercalate.go,
    String.append_assoc]

/-- The loop of the listing appends one row for each of the `n` frames from
frame `i` on, in order. -/
theorem formantListing_loop_eq (getValueAtTime : Formant → Int → ℚ → kFormant_unit → ℚ)
    (indexToX : Formant → Int → ℚ) (fixed : ℚ → Nat → String) (formant : Formant) :
    ∀ (n : Nat) (i : Int) (info : List String),
      formantListing_loop getValueAtTime indexToX fixed formant n i info
        = info ++ (List.range n).map (fun k : Nat =>
            listingRow getValueAtTime fixed formant (indexToX formant (i + (k : Int)))) := by
  intro n
  induction n with
  | zero => intro i info; simp [formantListing_loop]
  | succ n ih =>
    intro i info
    rw [formantListing_loop, ih, List.range_succ_eq_map, formantListing_line_eq]
    simp only [List.map_cons, List.map_map, List.append_assoc, List.singleton_append,
      Nat.cast_zero, add_zero]
    congr 2
    apply List.map_congr_left
    intro k _
    simp only [Function.comp, Nat.succ_eq_add_one, Nat.cast_add, Nat.cast_one]
    congr 2
    ring

theorem frameRange_mem (i1 i2 i : Int) : i ∈ frameRange i1 i2 ↔ i1 ≤ i ∧ i ≤ i2 := by
  unfold frameRange
  simp only [List.mem_map, List.mem_range]
  constructor
  · rintro ⟨k, hk, rfl⟩
    omega
  · intro h
    exact ⟨(i - i1).toNat, by omega, by omega⟩

theorem frameRange_increasing (i1 i2 : Int) : (frameRange i1 i2).Pairwise (fun a b => a < b) := by
  unfold frameRange
  rw [List.pairwise_map]
  exact (List.pairwise_lt_range _).imp (fun h => by omega)

/-- C8. The listing is the header line followed by data rows, each the time
and the four values F1..F4 of the active track through the 6-decimal
formatting. When the start and the end of the selection are equal there is
exactly one data row, at that time. Otherwise, with `(i1, i2)` the window
samples of the selection, there is one data row for each frame number of
`i1, i1 + 1, .., i2` in this order, each at the time of its frame: these are
exactly the frames with `i1 ≤ i ≤ i2`, each once, `i2 - i1 + 1` rows when
`i1 ≤ i2` and none when `i2 < i1`; the times increase when the times of the
frames increase with the frame number. -/
theorem formantListing_rows {Pic : Type}
    (getValueAtTime : Formant → Int → ℚ → kFormant_unit → ℚ)
    (getWindowSamples : Formant → ℚ → ℚ → Int × Int)
    (indexToX : Formant → Int → ℚ) (fixed : ℚ → Nat → String) (me : Area Pic) :
    INFO_DATA__formantListing getValueAtTime getWindowSamples indexToX fixed me
      = "Time_s   F1_Hz   F2_Hz   F3_Hz   F4_Hz" ::
          (if me.startSelection = me.endSelection then
            [listingRow getValueAtTime fixed me.d_formant me.startSelection]
          else
            (frameRange (getWindowSamples me.d_formant me.startSelection me.endSelection).1
                (getWindowSamples me.d_formant me.startSelection me.endSelection).2).map
              (fun i : Int => listingRow getValueAtTime fixed me.d_formant (indexToX me.d_formant i)))
    ∧ (me.startSelection = me.endSelection →
        (INFO_DATA__formantListing getValueAtTime getWindowSamples indexToX fixed me).length = 2)
    ∧ (me.startSelection ≠ me.endSelection →
        (getWindowSamples me.d_formant me.startSelection me.endSelection).1
          ≤ (getWindowSamples me.d_formant me.startSelection me.endSelection).2 →
        ((INFO_DATA__formantListing getValueAtTime getWindowSamples indexToX fixed me).length : Int)
          = 1 + ((getWindowSamples me.d_formant me.startSelection me.endSelection).2
              - (getWindowSamples me.d_formant me.startSelection me.endSelection).1 + 1))
    ∧ (me.startSelection ≠ me.endSelection →
        (getWindowSamples me.d_formant me.startSelection me.endSelection).2
          < (getWindowSamples me.d_formant me.startSelection me.endSelection).1 →
        (INFO_DATA__formantListing getValueAtTime getWindowSamples indexToX fixed me).length = 1)
    ∧ (∀ i1 i2 i : Int, i ∈ frameRange i1 i2 ↔ i1 ≤ i ∧ i ≤ i2)
    ∧ (∀ i1 i2 : Int, (frameRange i1 i2).Pairwise (fun a b => a < b))
    ∧ (∀ i1 i2 : Int,
        (∀ a b : Int, a < b → indexToX me.d_formant a < indexToX me.d_formant b) →
        ((frameRange i1 i2).map (indexToX me.d_formant)).Pairwise (fun s t => s < t)) := by
  have hmain : INFO_DATA__formantListing getValueAtTime getWindowSamples indexToX fixed me
      = "Time_s   F1_Hz   F2_Hz   F3_Hz   F4_Hz" ::
          (if me.startSelection = me.endSelection then
            [listingRow getValueAtTime fixed me.d_formant me.startSelection]
          else
            (frameRange (getWindowSamples me.d_formant me.startSelection me.endSelection).1
                (getWindowSamples me.d_formant me.startSelection me.endSelection).2).map
              (fun i : Int =>
                listingRow getValueAtTime fixed me.d_formant (indexToX me.d_formant i))) := by
    unfold INFO_DATA__formantListing
    by_cases heq : me.startSelection = me.endSelection
    · simp only [heq, if_true, formantListing_line_eq, List.singleton_append]
    · simp only [heq, if_false, formantListing_loop_eq, frameRange, List.map_map,
        List.singleton_append]
      rfl
  refine ⟨hmain, fun heq => ?_, fun hne hle => ?_, fun hne hlt => ?_, frameRange_mem,
    frameRange_increasing, fun i1 i2 hmono => ?_⟩
  · rw [hmain, if_pos heq]
    rfl
  · rw [hmain, if_neg hne]
    simp only [List.length_cons, List.length_map, frameRange, List.length_range]
    push_cast
    omega
  · rw [hmain, if_neg hne]
    simp only [List.length_cons, List.length_map, frameRange, List.length_range]
    omega
  · rw [List.pairwise_map]
    exact (frameRange_increasing i1 i2).imp (fun h => hmono _ _ h)

/-- An instance of C8: the cursor at 3/2 gives one data row; the selection
from 1/2 to 3/2 covers frames 2 and 3 and gives two. -/
theorem formantListing_rows_witness :
    demoArea.startSelection = demoArea.endSelection
    ∧ (INFO_DATA__formantListing demo_getValueAtTime demo_getWindowSamples demo_indexToX
        demo_Melder_fixed demoArea).length = 2
    ∧ demoAreaRange.startSelection ≠ demoAreaRange.endSelection
    ∧ demo_getWindowSamples demoAreaRange.d_formant demoAreaRange.startSelection
        demoAreaRange.endSelection = (2, 3)
    ∧ ((INFO_DATA__formantListing demo_getValueAtTime demo_getWindowSamples demo_indexToX
        demo_Melder_fixed demoAreaRange).length : Int) = 1 + (3 - 2 + 1) :=
  have hne : demoAreaRange.startSelection ≠ demoAreaRange.endSelection := by
    norm_num [demoAreaRange]
  have hw : demo_getWindowSamples demoAreaRange.d_formant demoAreaRange.startSelection
      demoAreaRange.endSelection = (2, 3) := by
    norm_num [demo_getWindowSamples, demoAreaRange, demoArea, demoFormant, List.range,
      List.range.loop, List.filter]
  have h := formantListing_rows demo_getValueAtTime demo_getWindowSamples demo_indexToX
    demo_Melder_fixed demoAreaRange
  ⟨rfl,
    (formantListing_rows demo_getValueAtTime demo_getWindowSamples demo_indexToX
      demo_Melder_fixed demoArea).2.1 rfl,
    hne, hw, by
      have h3 := h.2.2.1 hne (by rw [hw]; decide)
      rw [hw] at h3
      exact h3⟩

end FormantPathArea
